import Mathlib

/-!
Verification of the native dependency validator from
`packages/playwright-core/src/utils/dependencies` (shipped in this
repository inside `src/packages/playwright-core/src/client/tracing.ts`).

The development shallowly embeds the validator: external-process results
(the introspection tools, the dynamic-linker cache listing, the package
manager) and file-system observations are explicit inputs, and the
JavaScript string operations used by the source (`split`, `trim`,
`includes`, `endsWith`, `toLowerCase`, `Array.prototype.join`, object
spread) are modelled over `List Char`.
-/

namespace Playwright

/-! ## JavaScript string primitives, modelled over `List Char` -/

/-- Whether `pat` is a prefix of `l` (JS `String.prototype.startsWith`). -/
def isPrefixL (pat l : List Char) : Bool :=
  match pat, l with
  | [], _ => true
  | _ :: _, [] => false
  | a :: as, b :: bs => a = b && isPrefixL as bs

/-- Whether `pat` occurs as a contiguous substring of `l`
(JS `String.prototype.includes`). -/
def containsSub (pat : List Char) : List Char → Bool
  | [] => isPrefixL pat []
  | c :: tl => isPrefixL pat (c :: tl) || containsSub pat tl

/-- JS `s.includes(pat)`. -/
def strContains (s pat : String) : Bool :=
  containsSub pat.data s.data

/-- JS `s.startsWith(pat)`. -/
def strStartsWith (s pat : String) : Bool :=
  isPrefixL pat.data s.data

/-- JS `s.endsWith(pat)`. -/
def strEndsWith (s pat : String) : Bool :=
  isPrefixL pat.data.reverse s.data.reverse

/-- JS `s.trim()`: strip leading and trailing whitespace. -/
def trimChars (l : List Char) : List Char :=
  ((l.dropWhile Char.isWhitespace).reverse.dropWhile Char.isWhitespace).reverse

/-- JS `s.trim()` on strings. -/
def strTrim (s : String) : String :=
  ⟨trimChars s.data⟩

/-- JS `s.toLowerCase()` (restricted to ASCII case folding, which covers
every library name the validator handles). -/
def lowerStr (s : String) : String :=
  ⟨s.data.map Char.toLower⟩

/-- JS `s.split(sep)` for a one-character separator. -/
def splitChar (sep : Char) : List Char → List (List Char)
  | [] => [[]]
  | c :: rest =>
    if c = sep then [] :: splitChar sep rest
    else
      match splitChar sep rest with
      | [] => [[c]]
      | h :: t => (c :: h) :: t

/-- JS `s.split(sep)` on strings, one-character separator. -/
def jsSplitChar (s : String) (sep : Char) : List String :=
  (splitChar sep s.data).map String.mk

/-- The text before the first occurrence of `pat` in `l` (the whole of `l`
when `pat` does not occur): JS `s.split(pat)[0]`. -/
def beforeFirst (pat : List Char) : List Char → List Char
  | [] => []
  | c :: rest => if isPrefixL pat (c :: rest) then [] else c :: beforeFirst pat rest

/-- JS `s.split(pat)[0]` on strings. -/
def beforeFirstStr (s pat : String) : String :=
  ⟨beforeFirst pat.data s.data⟩

/-- JS `Array.prototype.join(sep)`. -/
def jsJoin (sep : String) : List String → String
  | [] => ""
  | [a] => a
  | a :: b :: rest => a ++ sep ++ jsJoin sep (b :: rest)

/-- JS `Set.prototype.add`: append the element unless already present,
preserving insertion order. -/
def setAdd (s : List String) (x : String) : List String :=
  if x ∈ s then s else s ++ [x]

/-- Lookup in a JS object literal viewed as an association list where a
later entry for the same key overwrites an earlier one (the semantics of
object spread `{...a, ...b}` is then lookup in `a ++ b`). -/
def jsObjGet (l : List (String × String)) (k : String) : Option String :=
  l.foldl (fun acc p => if p.1 = k then some p.2 else acc) none

/-- JS `parseInt(s, 10)`: skip leading whitespace, optional sign, then the
longest run of leading decimal digits; `NaN` (here `none`) when that run is
empty. -/
def parseIntJS (s : String) : Option Int :=
  let l := s.data.dropWhile Char.isWhitespace
  let core : List Char → Option Nat := fun cs =>
    let ds := cs.takeWhile Char.isDigit
    if ds.isEmpty then none
    else some (ds.foldl (fun acc c => acc * 10 + (c.toNat - 48)) 0)
  match l with
  | '-' :: rest => (core rest).map (fun n => -(n : Int))
  | '+' :: rest => (core rest).map (fun n => (n : Int))
  | _ => (core l).map (fun n => (n : Int))

/-! ## External-process and operating-system observations -/

/-- The observable result of running an external process via
`utils.spawnAsync`: its standard output and exit code (`code` is the exit
code, with any spawn failure surfacing as a non-zero value here, matching
the probers, which only inspect `code`). -/
structure SpawnResult where
  stdout : String
  code : Int
  deriving Repr, DecidableEq

/-- The observable result of the dynamic-linker cache listing tool
(`/sbin/ldconfig -p`): `error` records whether `spawnAsync` reported a
spawn error alongside the exit code. -/
structure LdconfigResult where
  stdout : String
  code : Int
  error : Bool
  deriving Repr, DecidableEq

/-- The `os` module observations used by `isSupportedWindowsVersion`. -/
structure OSInfo where
  platform : String
  arch : String
  release : String
  deriving Repr, DecidableEq

/-! ## Dependency Prober -/

/-- `missingFileDependenciesWindows` (tracing.ts:319-333): run the bundled
`PrintDeps.exe` on the file; on non-zero exit return `[]`; otherwise keep
each trimmed stdout line that ends with `"not found"` and contains `"=>"`,
extracting the trimmed text before the first `"=>"`, lower-cased. -/
def missingFileDependenciesWindows (spawn : SpawnResult) : List String :=
  if spawn.code ≠ 0 then []
  else
    (((jsSplitChar spawn.stdout '\n').map strTrim).filter
        (fun line => strEndsWith line "not found" && strContains line "=>")).map
      (fun line => lowerStr (strTrim (beforeFirstStr line "=>")))

/-- `missingFileDependencies` (tracing.ts:335-351): run `ldd` on the file
(with the extra library search directories joined into `LD_LIBRARY_PATH`);
on non-zero exit return `[]`; otherwise the same extraction as on Windows
but with the extracted name preserved verbatim. -/
def missingFileDependencies (spawn : SpawnResult) (extraLDPaths : List String) :
    List String :=
  let _ := jsJoin ":" extraLDPaths
  if spawn.code ≠ 0 then []
  else
    (((jsSplitChar spawn.stdout '\n').map strTrim).filter
        (fun line => strEndsWith line "not found" && strContains line "=>")).map
      (fun line => strTrim (beforeFirstStr line "=>"))

/-! ## Dynamic-Load Checker -/

/-- `missingDLOPENLibraries` (tracing.ts:353-364), instrumented with the
number of times the cache-listing tool is invoked (second component).
Empty input returns `[]` without querying `ldconfig`; a failing
`ldconfig` is fail-open (`[]`); otherwise keep the libraries whose
lower-cased name is not a substring of the lower-cased cache text. -/
def missingDLOPENLibrariesRuns (libraries : List String) (tool : LdconfigResult) :
    List String × Nat :=
  if libraries.isEmpty then ([], 0)
  else if tool.code ≠ 0 || tool.error then ([], 1)
  else
    (libraries.filter (fun library =>
      !(strContains (lowerStr tool.stdout) (lowerStr library))), 1)

/-- The value returned by `missingDLOPENLibraries`. -/
def missingDLOPENLibraries (libraries : List String) (tool : LdconfigResult) :
    List String :=
  (missingDLOPENLibrariesRuns libraries tool).1

/-! ## Aggregator -/

/-- The fan-in loops of `validateDependenciesLinux` (tracing.ts:228-234)
and `validateDependenciesWindows` (tracing.ts:167-171): union all probe
result lists into one insertion-ordered deduplicated set, then add the
Dynamic-Load Checker results. -/
def aggregateMissingDeps (probeLists : List (List String))
    (dlResult : List String) : List String :=
  dlResult.foldl setAdd (probeLists.foldl (fun acc deps => deps.foldl setAdd acc) [])

/-- The MissingDependencySet that `validateDependenciesLinux` hands to its
classification phase, as a function of the probe outcomes and the
`ldconfig` outcome. -/
def linuxMissingSet (probes : List SpawnResult) (linuxLddDirectories : List String)
    (dlOpenLibraries : List String) (tool : LdconfigResult) : List String :=
  aggregateMissingDeps
    (probes.map (fun spawn => missingFileDependencies spawn linuxLddDirectories))
    (missingDLOPENLibraries dlOpenLibraries tool)

/-! ## Library-to-package mapping (Linux Classifier) -/

/-- `MANUAL_LIBRARY_TO_PACKAGE_NAME_UBUNTU` (tracing.ts:366-372). -/
def MANUAL_LIBRARY_TO_PACKAGE_NAME_UBUNTU : List (String × String) :=
  [("libx264.so", "gstreamer1.0-libav")]

/-- The effective library-to-package mapping of
`validateDependenciesLinux` (tracing.ts:240-243): object spread of the
catalog mapping (`deps[utils.hostPlatform]?.lib2package || {}`) followed by
the manual override table, so a later (override) entry wins. -/
def libraryToPackageNameMapping (catalog : List (String × String)) :
    List (String × String) :=
  catalog ++ MANUAL_LIBRARY_TO_PACKAGE_NAME_UBUNTU

/-- The classification loop's `const packageName = ...; if (packageName)`
(tracing.ts:246-247): the looked-up package name when it is truthy in
JavaScript (present and non-empty), else `none`. -/
def lookupPackage (catalog : List (String × String)) (d : String) : Option String :=
  match jsObjGet (libraryToPackageNameMapping catalog) d with
  | some p => if p.isEmpty then none else some p
  | none => none

/-- The `missingPackages` set built by the classification loop
(tracing.ts:245-251): the package names of the mapped missing
dependencies, in insertion order, deduplicated. -/
def classifierPackages (catalog : List (String × String)) (agg : List String) :
    List String :=
  (agg.filterMap (lookupPackage catalog)).foldl setAdd []

/-- The contents of the `missingDeps` set after the classification loop
(tracing.ts:245-251): every mapped name has been deleted, the unmapped
names remain. -/
def classifierRemainingDeps (catalog : List (String × String)) (agg : List String) :
    List String :=
  agg.filter (fun d => (lookupPackage catalog d).isNone)

/-! ## External helpers not under src/ -/

/-- Modelled from the spec: `buildPlaywrightCLICommand` is imported from
registry code that is not part of this repository snapshot; the spec
describes it as "a canonical install-helper command (parameterized by the
caller's ecosystem identifier)". -/
def buildPlaywrightCLICommand (sdkLanguage : String) (parameters : String) :
    String :=
  if sdkLanguage = "python" then "playwright " ++ parameters
  else "npx playwright " ++ parameters

/-- Modelled from the spec: `utils.wrapInASCIIBox` is imported from utility
code that is not part of this repository snapshot; the spec only specifies
the remediation text the fatal error carries, so the box decoration is
modelled as the identity on its text. -/
def wrapInASCIIBox (text : String) (padding : Nat) : String :=
  let _ := padding
  text

/-! ## Linux Classifier and Reporter -/

/-- The `maybeSudo` prefix (tracing.ts:253): `uid` is `process.getuid()`
and `platform` is `os.platform()`. -/
def maybeSudoStr (uid : Int) (platform : String) : String :=
  if uid ≠ 0 && platform ≠ "win32" then "sudo " else ""

/-- The happy-path fatal message of `validateDependenciesLinux`
(tracing.ts:256-265): recommend the Playwright CLI install helper. -/
def happyPathMessage (sdkLanguage maybeSudo : String) : String :=
  "\n" ++ wrapInASCIIBox (jsJoin "\n" [
    "Host system is missing a few dependencies to run browsers.",
    "Please install them with the following command:",
    "",
    "    " ++ maybeSudo ++ buildPlaywrightCLICommand sdkLanguage "install-deps",
    "",
    "<3 Playwright Team"]) 1

/-- The `missingPackagesMessage` block (tracing.ts:269-276), for a
non-empty package set. -/
def missingPackagesMessage (maybeSudo : String) (missingPackages : List String) :
    String :=
  jsJoin "\n" [
    "  Install missing packages with:",
    "      " ++ maybeSudo ++ "apt-get install " ++
      jsJoin "\\\n          " missingPackages,
    "",
    ""]

/-- The `missingDependenciesMessage` block (tracing.ts:278-286), for a
non-empty remaining set; `hasPackages` selects the header. -/
def missingDependenciesMessage (hasPackages : Bool) (missingDeps : List String) :
    String :=
  jsJoin "\n" [
    "  " ++ (if hasPackages then
      "Missing libraries we didn\x27t find packages for:"
    else "Missing libraries are:"),
    "      " ++ jsJoin "\n      " missingDeps,
    ""]

/-- `validateDependenciesLinux`, classification phase (tracing.ts:235-289),
as a function of the aggregated missing set: `none` when no error is
thrown, `some message` for the thrown fatal error. -/
def validateDependenciesLinuxCore (sdkLanguage : String) (uid : Int)
    (platform : String) (catalog : List (String × String)) (agg : List String) :
    Option String :=
  if agg.isEmpty then none
  else
    let missingPackages := classifierPackages catalog agg
    let missingDeps := classifierRemainingDeps catalog agg
    let maybeSudo := maybeSudoStr uid platform
    if !missingPackages.isEmpty && missingDeps.isEmpty then
      some (happyPathMessage sdkLanguage maybeSudo)
    else
      some ("Host system is missing dependencies!\n\n" ++
        (if !missingPackages.isEmpty then
          missingPackagesMessage maybeSudo missingPackages
        else "") ++
        (if !missingDeps.isEmpty then
          missingDependenciesMessage (!missingPackages.isEmpty) missingDeps
        else ""))

/-- The whole Linux validation (tracing.ts:222-289) as a function of the
probe outcomes and the `ldconfig` outcome. -/
def validateDependenciesLinux (sdkLanguage : String) (uid : Int)
    (platform : String) (catalog : List (String × String))
    (probes : List SpawnResult) (linuxLddDirectories : List String)
    (dlOpenLibraries : List String) (tool : LdconfigResult) : Option String :=
  validateDependenciesLinuxCore sdkLanguage uid platform catalog
    (linuxMissingSet probes linuxLddDirectories dlOpenLibraries tool)

/-! ## Windows Classifier and Reporter -/

/-- `isSupportedWindowsVersion` (tracing.ts:103-111): true iff the platform
is `win32`, the architecture is `x64`, and `os.release()` split on `.` and
parsed with `parseInt` yields a major version above 6, or equal to 6 with a
minor version above 1. Comparisons involving `NaN` or `undefined` tokens
are false, as in JavaScript. -/
def isSupportedWindowsVersion (os : OSInfo) : Bool :=
  if os.platform ≠ "win32" || os.arch ≠ "x64" then false
  else
    let tokens := (jsSplitChar os.release '.').map parseIntJS
    let major := tokens.getD 0 none
    let minor := tokens.getD 1 none
    (match major with | some m => decide (m > 6) | none => false) ||
    ((match major with | some m => decide (m = 6) | none => false) &&
     (match minor with | some m => decide (m > 1) | none => false))

/-- The terminal outcome of a Windows validation run: silent return, a
thrown fatal error, or a warning written to the diagnostic stream. -/
inductive WinValidation where
  | ok : WinValidation
  | fatal : String → WinValidation
  | warned : String → WinValidation
  deriving Repr, DecidableEq

/-- The CRT-family test of tracing.ts:179. -/
def isCrtDep (dep : String) : Bool :=
  strStartsWith dep "api-ms-win-crt" || dep = "vcruntime140.dll" ||
    dep = "vcruntime140_1.dll" || dep = "msvcp140.dll"

/-- The Media-Foundation-family test of tracing.ts:181. -/
def isMediaFoundationDep (dep : String) : Bool :=
  dep = "mf.dll" || dep = "mfplat.dll" || dep = "msmpeg2vdec.dll" ||
    dep = "evr.dll" || dep = "avrt.dll"

/-- `validateDependenciesWindows`, classification phase
(tracing.ts:173-219), as a function of the aggregated missing set: compose
the remediation details and either throw (supported Windows version) or
warn (unsupported). -/
def validateDependenciesWindowsCore (os : OSInfo) (missingDeps : List String) :
    WinValidation :=
  if missingDeps.isEmpty then .ok
  else
    let isCrtMissing := missingDeps.any isCrtDep
    let isMediaFoundationMissing :=
      missingDeps.any (fun dep => !isCrtDep dep && isMediaFoundationDep dep)
    let details :=
      (if isCrtMissing then [
        "Some of the Universal C Runtime files cannot be found on the system. You can fix",
        "that by installing Microsoft Visual C++ Redistributable for Visual Studio from:",
        "https://support.microsoft.com/en-us/help/2977003/the-latest-supported-visual-c-downloads",
        ""] else []) ++
      (if isMediaFoundationMissing then [
        "Some of the Media Foundation files cannot be found on the system. If you are",
        "on Windows Server try fixing this by running the following command in PowerShell",
        "as Administrator:",
        "",
        "    Install-WindowsFeature Server-Media-Foundation",
        "",
        "For Windows N editions visit:",
        "https://support.microsoft.com/en-us/help/3145500/media-feature-pack-list-for-windows-n-editions",
        ""] else []) ++
      ["Full list of missing libraries:",
       "    " ++ jsJoin "\n    " missingDeps,
       ""]
    let message := "Host system is missing dependencies!\n\n" ++ jsJoin "\n" details
    if isSupportedWindowsVersion os then .fatal message else .warned message

/-- The whole Windows validation (tracing.ts:161-220) as a function of the
probe outcomes. -/
def validateDependenciesWindows (os : OSInfo) (probes : List SpawnResult) :
    WinValidation :=
  validateDependenciesWindowsCore os
    (aggregateMissingDeps (probes.map missingFileDependenciesWindows) [])

/-! ## Binary Candidate Scanner -/

/-- One directory entry as observed by the scanner: its `readdir` name,
whether `stat` succeeds, whether the stats say it is a regular file, and
whether the `fs.access(X_OK)` probe of `checkExecutable` succeeds. -/
structure DirEntry where
  name : String
  statOk : Bool
  isFile : Bool
  executable : Bool
  deriving Repr, DecidableEq

/-- `path.resolve(directoryPath, file)` for an absolute directory and a
plain `readdir` entry name. -/
def resolvePath (directoryPath file : String) : String :=
  directoryPath ++ "/" ++ file

/-- `path.basename`: the final path component. -/
def baseNameStr (p : String) : String :=
  (jsSplitChar p '/').getLastD p

/-- `isSharedLib` (tracing.ts:291-300). -/
def isSharedLib (platform : String) (basename : String) : Bool :=
  if platform = "linux" then
    strEndsWith basename ".so" || strContains basename ".so."
  else if platform = "win32" then strEndsWith basename ".dll"
  else false

/-- `executablesOrSharedLibraries` (tracing.ts:302-317): stat every entry
of the directory (a single stat failure rejects the whole `Promise.all`,
so the scan errors), keep the regular files, and of those keep the paths
whose lower-cased basename is a shared library by platform convention or
which pass the executable check. -/
def executablesOrSharedLibraries (platform directoryPath : String)
    (entries : List DirEntry) : Except String (List String) :=
  if entries.all (fun e => e.statOk) then
    .ok ((entries.filter (fun e => e.isFile)).filterMap (fun e =>
      let filePath := resolvePath directoryPath e.name
      let basename := lowerStr (baseNameStr filePath)
      if isSharedLib platform basename then some filePath
      else if e.executable then some filePath
      else none))
  else .error "stat failed"

/-! ## Installer (Windows) -/

/-- The dependency groups of tracing.ts:113. -/
inductive DependencyGroup where
  | chromium | firefox | webkit | tools
  deriving Repr, DecidableEq

/-- `quoteProcessArgs` (tracing.ts:374-380). -/
def quoteProcessArgs (args : List String) : List String :=
  args.map (fun arg =>
    if strContains arg " " then "\"" ++ arg ++ "\"" else arg)

/-- The observable effects of one `installDependenciesWindows` call: lines
printed to the console, processes spawned, and the thrown error message if
any. -/
structure WinInstallEffects where
  printed : List String
  spawned : List (String × List String)
  thrownError : Option String
  deriving Repr, DecidableEq

/-- `installDependenciesWindows` (tracing.ts:115-127): a no-op unless the
requested groups contain `chromium`; with `chromium`, dry-run prints the
quoted PowerShell command line, otherwise the script is spawned and a
non-zero exit code becomes a thrown error. `binDirectory` stands for the
`BIN_DIRECTORY` computed from `__dirname`, and `spawnCode` for the exit
code of the spawned script. -/
def installDependenciesWindows (binDirectory : String)
    (targets : List DependencyGroup) (dryRun : Bool) (spawnCode : Int) :
    WinInstallEffects :=
  if targets.contains .chromium then
    let command := "powershell.exe"
    let args := ["-ExecutionPolicy", "Bypass", "-File",
      resolvePath binDirectory "install_media_pack.ps1"]
    if dryRun then
      { printed := [command ++ " " ++ jsJoin " " (quoteProcessArgs args)],
        spawned := [], thrownError := none }
    else if spawnCode ≠ 0 then
      { printed := [], spawned := [(command, args)],
        thrownError := some "Failed to install windows dependencies!" }
    else
      { printed := [], spawned := [(command, args)], thrownError := none }
  else
    { printed := [], spawned := [], thrownError := none }

/-! ## Spec-side definitions, for refinement comparisons -/

/-- The spec's description of the Prober extraction: a line is extracted
as missing iff the whitespace-trimmed line ends with the `"not found"`
marker and contains the `"=>"` separator; the extracted name is the
trimmed text before the first separator. -/
def extractedMissingSpec (stdout : String) : List String :=
  (((jsSplitChar stdout '\n').map strTrim).filter
      (fun line => strEndsWith line "not found" && strContains line "=>")).map
    (fun line => strTrim (beforeFirstStr line "=>"))

/-- The claim's description of the Scanner: return exactly the absolute
paths of the regular-file entries whose filename, read verbatim, matches
the platform shared-library naming convention, or which carry an execute
permission; any stat failure fails the whole scan. -/
def scannerClaimSpec (platform directoryPath : String) (entries : List DirEntry) :
    Except String (List String) :=
  if entries.all (fun e => e.statOk) then
    .ok ((entries.filter (fun e =>
      e.isFile && (isSharedLib platform e.name || e.executable))).map
        (fun e => resolvePath directoryPath e.name))
  else .error "stat failed"

/-- The amended description of the Scanner: identical to the claim except
that the naming convention is checked against the lower-cased basename of
the resolved path, which is what the source does. -/
def scannerAmendedSpec (platform directoryPath : String) (entries : List DirEntry) :
    Except String (List String) :=
  if entries.all (fun e => e.statOk) then
    .ok ((entries.filter (fun e =>
      e.isFile &&
        (isSharedLib platform (lowerStr (baseNameStr (resolvePath directoryPath e.name))) ||
          e.executable))).map
        (fun e => resolvePath directoryPath e.name))
  else .error "stat failed"

/-! ## Helper lemmas -/

theorem mem_setAdd (s : List String) (y x : String) :
    x ∈ setAdd s y ↔ x ∈ s ∨ x = y := by
  unfold setAdd
  split
  · rename_i hy
    constructor
    · exact fun h => Or.inl h
    · rintro (h | rfl)
      · exact h
      · exact hy
  · simp

theorem nodup_setAdd (s : List String) (y : String) (h : s.Nodup) :
    (setAdd s y).Nodup := by
  unfold setAdd
  split
  · exact h
  · rename_i hy
    simpa [List.nodup_append] using ⟨h, hy⟩

theorem mem_foldl_setAdd (l : List String) (s : List String) (x : String) :
    x ∈ l.foldl setAdd s ↔ x ∈ s ∨ x ∈ l := by
  induction l generalizing s with
  | nil => simp
  | cons a tl ih =>
    simp only [List.foldl_cons, ih, mem_setAdd, List.mem_cons]
    tauto

theorem nodup_foldl_setAdd (l : List String) (s : List String) (h : s.Nodup) :
    (l.foldl setAdd s).Nodup := by
  induction l generalizing s with
  | nil => exact h
  | cons a tl ih => exact ih _ (nodup_setAdd _ _ h)

theorem mem_foldl_setAdd_flatten (probeLists : List (List String))
    (s : List String) (x : String) :
    x ∈ probeLists.foldl (fun acc deps => deps.foldl setAdd acc) s ↔
      x ∈ s ∨ ∃ L ∈ probeLists, x ∈ L := by
  induction probeLists generalizing s with
  | nil => simp
  | cons L tl ih =>
    simp only [List.foldl_cons, ih, mem_foldl_setAdd, List.mem_cons]
    constructor
    · rintro ((h | h) | ⟨M, hM, hx⟩)
      · exact Or.inl h
      · exact Or.inr ⟨L, Or.inl rfl, h⟩
      · exact Or.inr ⟨M, Or.inr hM, hx⟩
    · rintro (h | ⟨M, (rfl | hM), hx⟩)
      · exact Or.inl (Or.inl h)
      · exact Or.inl (Or.inr hx)
      · exact Or.inr ⟨M, hM, hx⟩

theorem mem_aggregateMissingDeps (probeLists : List (List String))
    (dlResult : List String) (x : String) :
    x ∈ aggregateMissingDeps probeLists dlResult ↔
      (∃ L ∈ probeLists, x ∈ L) ∨ x ∈ dlResult := by
  unfold aggregateMissingDeps
  simp only [mem_foldl_setAdd, mem_foldl_setAdd_flatten, List.not_mem_nil,
    false_or]

theorem nodup_foldl_setAdd_flatten (probeLists : List (List String))
    (s : List String) (h : s.Nodup) :
    (probeLists.foldl (fun acc deps => deps.foldl setAdd acc) s).Nodup := by
  induction probeLists generalizing s with
  | nil => exact h
  | cons L tl ih => exact ih _ (nodup_foldl_setAdd _ _ h)

theorem nodup_aggregateMissingDeps (probeLists : List (List String))
    (dlResult : List String) :
    (aggregateMissingDeps probeLists dlResult).Nodup := by
  unfold aggregateMissingDeps
  exact nodup_foldl_setAdd _ _
    (nodup_foldl_setAdd_flatten _ _ List.nodup_nil)

theorem jsObjGet_foldl (l : List (String × String)) (acc : Option String)
    (k : String) :
    l.foldl (fun acc p => if p.1 = k then some p.2 else acc) acc =
      match jsObjGet l k with
      | some v => some v
      | none => acc := by
  induction l generalizing acc with
  | nil => simp [jsObjGet]
  | cons p tl ih =>
    have h2 : jsObjGet (p :: tl) k =
        match jsObjGet tl k with
        | some v => some v
        | none => if p.1 = k then some p.2 else none := by
      unfold jsObjGet
      simp only [List.foldl_cons]
      exact ih _
    simp only [List.foldl_cons]
    rw [ih, h2]
    cases hj : jsObjGet tl k with
    | some v => rfl
    | none => by_cases hk : p.1 = k <;> simp [hk]

theorem jsObjGet_append (a b : List (String × String)) (k : String) :
    jsObjGet (a ++ b) k =
      match jsObjGet b k with
      | some v => some v
      | none => jsObjGet a k := by
  unfold jsObjGet
  rw [List.foldl_append]
  exact jsObjGet_foldl b _ k

theorem jsJoin_decomp (sep : String) (l : List String) (x : String)
    (h : x ∈ l) :
    ∃ pre post, jsJoin sep l = pre ++ x ++ post := by
  induction l with
  | nil => simp at h
  | cons a tl ih =>
    cases tl with
    | nil =>
      simp only [List.mem_singleton] at h
      subst h
      exact ⟨"", "", by simp [jsJoin]⟩
    | cons b rest =>
      rcases List.mem_cons.mp h with rfl | hm
      · exact ⟨"", sep ++ jsJoin sep (b :: rest), by
          simp [jsJoin, String.append_assoc, String.empty_append]⟩
      · obtain ⟨pre, post, hpp⟩ := ih hm
        refine ⟨a ++ sep ++ pre, post, ?_⟩
        simp [jsJoin, hpp, String.append_assoc]

/-! ## Claim C1 -/

/-- C1, counterexample: with one probed binary whose `ldd` output reports
`libx264.so => not found`, and `libx264.so` also in the dlopen list while
the `ldconfig` cache text contains it, the Dynamic-Load Checker finds the
name present, yet the aggregated set handed to the Classifier still
contains it: nothing is ever removed, contradicting the claim. -/
theorem c1_checker_presence_not_removed_cex :
    "libx264.so" ∈ missingFileDependencies ⟨"\tlibx264.so => not found\n", 0⟩ [] ∧
    strContains (lowerStr "\tlibx264.so (libc6,x86-64) => /usr/lib/libx264.so\n")
      (lowerStr "libx264.so") = true ∧
    missingDLOPENLibraries ["libx264.so"]
      ⟨"\tlibx264.so (libc6,x86-64) => /usr/lib/libx264.so\n", 0, false⟩ = [] ∧
    "libx264.so" ∈ linuxMissingSet [⟨"\tlibx264.so => not found\n", 0⟩] []
      ["libx264.so"] ⟨"\tlibx264.so (libc6,x86-64) => /usr/lib/libx264.so\n", 0, false⟩ := by
  decide

/-- C1, amended: the MissingDependencySet handed to the Classifier is
exactly the deduplicated union of the Prober results and the Dynamic-Load
Checker result; a name the checker found present is merely not added by
the checker, but remains in the set whenever the Prober reported it
missing — no explicit removal happens. -/
theorem c1_missing_set_is_union (probes : List SpawnResult)
    (dirs dlLibs : List String) (tool : LdconfigResult) :
    (∀ name, name ∈ linuxMissingSet probes dirs dlLibs tool ↔
      (∃ spawn ∈ probes, name ∈ missingFileDependencies spawn dirs) ∨
        name ∈ missingDLOPENLibraries dlLibs tool) ∧
    (linuxMissingSet probes dirs dlLibs tool).Nodup := by
  constructor
  · intro name
    unfold linuxMissingSet
    rw [mem_aggregateMissingDeps]
    simp
  · exact nodup_aggregateMissingDeps _ _

/-! ## Claim C2 -/

/-- C2: when the introspection tool exits 0, the Linux Prober extraction
equals the spec-side extraction (names preserved verbatim), the Windows
variant equals the same extraction followed by lower-casing every name,
and a name is extracted iff it comes from a whitespace-trimmed output line
that ends with `"not found"` and contains `"=>"`, the name being the
trimmed text before the first `"=>"`. -/
theorem c2_prober_extraction (spawn : SpawnResult) (extraLDPaths : List String)
    (h : spawn.code = 0) :
    missingFileDependencies spawn extraLDPaths = extractedMissingSpec spawn.stdout ∧
    missingFileDependenciesWindows spawn =
      (extractedMissingSpec spawn.stdout).map lowerStr ∧
    (∀ n, n ∈ extractedMissingSpec spawn.stdout ↔
      ∃ raw ∈ jsSplitChar spawn.stdout '\n',
        (strEndsWith (strTrim raw) "not found" = true ∧
          strContains (strTrim raw) "=>" = true) ∧
        n = strTrim (beforeFirstStr (strTrim raw) "=>")) := by
  refine ⟨?_, ?_, ?_⟩
  · unfold missingFileDependencies extractedMissingSpec
    simp [h]
  · unfold missingFileDependenciesWindows extractedMissingSpec
    simp [h, List.map_map]
  · intro n
    unfold extractedMissingSpec
    simp only [List.mem_map, List.mem_filter, Bool.and_eq_true]
    constructor
    · rintro ⟨line, ⟨hline, hcond⟩, rfl⟩
      obtain ⟨raw, hraw, rfl⟩ := hline
      exact ⟨raw, hraw, hcond, rfl⟩
    · rintro ⟨raw, hraw, hcond, rfl⟩
      exact ⟨strTrim raw, ⟨⟨raw, hraw, rfl⟩, hcond⟩, rfl⟩

/-- C2 witness: for the concrete output `"\tLibX.so.1 => not found\n"` the
Linux extraction keeps the case verbatim while Windows lower-cases it. -/
theorem c2_prober_extraction_witness :
    missingFileDependencies ⟨"\tLibX.so.1 => not found\n", 0⟩ [] =
      extractedMissingSpec "\tLibX.so.1 => not found\n" ∧
    missingFileDependenciesWindows ⟨"\tLibX.so.1 => not found\n", 0⟩ =
      (extractedMissingSpec "\tLibX.so.1 => not found\n").map lowerStr :=
  ⟨(c2_prober_extraction ⟨"\tLibX.so.1 => not found\n", 0⟩ [] rfl).1,
   (c2_prober_extraction ⟨"\tLibX.so.1 => not found\n", 0⟩ [] rfl).2.1⟩

/-! ## Claim C3 -/

/-- C3: a non-zero exit of the introspection tool makes both Prober
variants return the empty list (the embedding is total, so no error is
raised either). -/
theorem c3_nonzero_exit_empty (spawn : SpawnResult) (extraLDPaths : List String)
    (h : spawn.code ≠ 0) :
    missingFileDependencies spawn extraLDPaths = [] ∧
    missingFileDependenciesWindows spawn = [] := by
  unfold missingFileDependencies missingFileDependenciesWindows
  simp [h]

/-- C3 witness: exit code 1 yields empty lists even though the output has
a `"not found"` line. -/
theorem c3_nonzero_exit_empty_witness :
    missingFileDependencies ⟨"libfoo.so => not found", 1⟩ [] = [] ∧
    missingFileDependenciesWindows ⟨"libfoo.so => not found", 1⟩ = [] :=
  c3_nonzero_exit_empty ⟨"libfoo.so => not found", 1⟩ [] (by decide)

/-! ## Claim C5 -/

/-- C5: for a non-empty Windows missing set, validation throws exactly
when `isSupportedWindowsVersion` holds (which requires platform `win32`
and architecture `x64`), otherwise it warns with the same message; version
`6.1` is unsupported (warn path) and `6.2` supported (fatal path), with an
identical message for an identical missing set. -/
theorem c5_windows_supported_gate (os : OSInfo) (missingDeps : List String)
    (h : missingDeps ≠ []) :
    ((∃ m, validateDependenciesWindowsCore os missingDeps = .fatal m) ↔
      isSupportedWindowsVersion os = true) ∧
    (isSupportedWindowsVersion os = false →
      ∃ m, validateDependenciesWindowsCore os missingDeps = .warned m) ∧
    (isSupportedWindowsVersion os = true →
      os.platform = "win32" ∧ os.arch = "x64") ∧
    isSupportedWindowsVersion ⟨"win32", "x64", "6.1"⟩ = false ∧
    isSupportedWindowsVersion ⟨"win32", "x64", "6.2"⟩ = true ∧
    (∃ m, validateDependenciesWindowsCore ⟨"win32", "x64", "6.1"⟩ missingDeps =
        .warned m ∧
      validateDependenciesWindowsCore ⟨"win32", "x64", "6.2"⟩ missingDeps =
        .fatal m) := by
  have hne : missingDeps.isEmpty = false := by
    simpa [List.isEmpty_iff] using h
  refine ⟨?_, ?_, ?_, by decide, by decide, ?_⟩
  · unfold validateDependenciesWindowsCore
    cases hs : isSupportedWindowsVersion os <;> simp [hne, hs]
  · intro hs
    unfold validateDependenciesWindowsCore
    simp [hne, hs]
  · intro hs
    unfold isSupportedWindowsVersion at hs
    by_cases hp : os.platform = "win32"
    · by_cases ha : os.arch = "x64"
      · exact ⟨hp, ha⟩
      · simp [hp, ha] at hs
    · simp [hp] at hs
  · have h61 : isSupportedWindowsVersion ⟨"win32", "x64", "6.1"⟩ = false := by
      decide
    have h62 : isSupportedWindowsVersion ⟨"win32", "x64", "6.2"⟩ = true := by
      decide
    unfold validateDependenciesWindowsCore
    simp only [hne, Bool.false_eq_true, if_false, h61, h62]
    exact ⟨_, rfl, rfl⟩

/-- C5 witness: a supported Windows (version 6.2) with `mf.dll` missing
throws a fatal error. -/
theorem c5_windows_supported_gate_witness :
    ∃ m, validateDependenciesWindowsCore ⟨"win32", "x64", "6.2"⟩ ["mf.dll"] =
      .fatal m :=
  ((c5_windows_supported_gate ⟨"win32", "x64", "6.2"⟩ ["mf.dll"]
    (by decide)).1).mpr (by decide)

/-! ## Claim C6 -/

/-- C6: the Dynamic-Load Checker returns exactly the input names whose
case-folded text does not occur in the case-folded cache text; a failing
cache listing is fail-open (empty result), and an empty input returns
without invoking the cache-listing tool at all (invocation count 0). -/
theorem c6_dlopen_checker (libraries : List String) (tool : LdconfigResult) :
    (libraries = [] → missingDLOPENLibrariesRuns libraries tool = ([], 0)) ∧
    (tool.code ≠ 0 ∨ tool.error = true →
      missingDLOPENLibraries libraries tool = []) ∧
    (tool.code = 0 → tool.error = false → ∀ lib,
      lib ∈ missingDLOPENLibraries libraries tool ↔
        lib ∈ libraries ∧
          strContains (lowerStr tool.stdout) (lowerStr lib) = false) := by
  refine ⟨?_, ?_, ?_⟩
  · intro h
    subst h
    rfl
  · intro h
    unfold missingDLOPENLibraries missingDLOPENLibrariesRuns
    by_cases hl : libraries.isEmpty
    · simp [hl]
    · rcases h with h | h <;> simp [hl, h]
  · intro hc he lib
    unfold missingDLOPENLibraries missingDLOPENLibrariesRuns
    by_cases hl : libraries.isEmpty
    · rw [List.isEmpty_iff] at hl
      simp [hl]
    · simp [hl, hc, he, List.mem_filter]

/-- C6 witness: an empty input returns without invoking the tool; exit
code 1 is fail-open; and on a successful listing that contains only
`libatk-1.0.so.0`, membership of `libx264.so` in the result is
characterized by its absence from the cache text. -/
theorem c6_dlopen_checker_witness :
    missingDLOPENLibrariesRuns [] ⟨"", 0, false⟩ = ([], 0) ∧
    missingDLOPENLibraries ["libx264.so"] ⟨"", 1, false⟩ = [] ∧
    ("libx264.so" ∈ missingDLOPENLibraries ["libx264.so", "libatk-1.0.so.0"]
        ⟨"\tlibatk-1.0.so.0 (libc6) => /usr/lib/libatk-1.0.so.0\n", 0, false⟩ ↔
      "libx264.so" ∈ (["libx264.so", "libatk-1.0.so.0"] : List String) ∧
        strContains
          (lowerStr "\tlibatk-1.0.so.0 (libc6) => /usr/lib/libatk-1.0.so.0\n")
          (lowerStr "libx264.so") = false) :=
  ⟨(c6_dlopen_checker [] ⟨"", 0, false⟩).1 rfl,
   (c6_dlopen_checker ["libx264.so"] ⟨"", 1, false⟩).2.1 (Or.inl (by decide)),
   (c6_dlopen_checker ["libx264.so", "libatk-1.0.so.0"]
      ⟨"\tlibatk-1.0.so.0 (libc6) => /usr/lib/libatk-1.0.so.0\n", 0, false⟩).2.2
     rfl rfl "libx264.so"⟩

/-! ## Claim C7 -/

/-- C7, counterexample: a non-executable regular file named `LIB.SO` on
Linux is returned by the Scanner (the source lower-cases the basename
before the naming-convention test), while the claim's verbatim reading of
`filename ends with .so or contains .so.` excludes it. -/
theorem c7_scanner_cex :
    executablesOrSharedLibraries "linux" "/d" [⟨"LIB.SO", true, true, false⟩] =
      .ok ["/d/LIB.SO"] ∧
    scannerClaimSpec "linux" "/d" [⟨"LIB.SO", true, true, false⟩] = .ok [] :=
  ⟨rfl, rfl⟩

/-- Helper for C7: the scanner's filterMap over the regular files equals
the filter-then-map formulation used by the amended characterization. -/
theorem scanner_filterMap_eq (platform directoryPath : String)
    (entries : List DirEntry) :
    (entries.filter (fun e => e.isFile)).filterMap (fun e =>
      let filePath := resolvePath directoryPath e.name
      let basename := lowerStr (baseNameStr filePath)
      if isSharedLib platform basename then some filePath
      else if e.executable then some filePath
      else none) =
    (entries.filter (fun e =>
      e.isFile &&
        (isSharedLib platform (lowerStr (baseNameStr (resolvePath directoryPath e.name))) ||
          e.executable))).map (fun e => resolvePath directoryPath e.name) := by
  induction entries with
  | nil => rfl
  | cons e tl ih =>
    by_cases hf : e.isFile <;>
      by_cases hsl : isSharedLib platform
        (lowerStr (baseNameStr (resolvePath directoryPath e.name))) <;>
      by_cases hex : e.executable <;>
      simp [List.filter_cons, List.filterMap_cons, hf, hsl, hex, ih]

/-- C7, amended: the Scanner returns exactly the resolved paths of the
regular-file entries whose lower-cased basename matches the platform
naming convention or which carry an execute permission, and any stat
failure fails the whole scan with an error. -/
theorem c7_scanner_characterization (platform directoryPath : String)
    (entries : List DirEntry) :
    executablesOrSharedLibraries platform directoryPath entries =
      scannerAmendedSpec platform directoryPath entries ∧
    ((∃ e ∈ entries, e.statOk = false) →
      executablesOrSharedLibraries platform directoryPath entries =
        .error "stat failed") := by
  constructor
  · unfold executablesOrSharedLibraries scannerAmendedSpec
    split
    · exact congrArg Except.ok (scanner_filterMap_eq platform directoryPath entries)
    · rfl
  · rintro ⟨e, he, hne⟩
    unfold executablesOrSharedLibraries
    have hall : entries.all (fun e => e.statOk) = false := by
      rw [List.all_eq_false]
      exact ⟨e, he, by simp [hne]⟩
    simp [hall]

/-- C7 witness: a stat failure on the single entry fails the scan. -/
theorem c7_scanner_characterization_witness :
    executablesOrSharedLibraries "linux" "/d" [⟨"app", false, true, true⟩] =
      .error "stat failed" :=
  (c7_scanner_characterization "linux" "/d" [⟨"app", false, true, true⟩]).2
    ⟨⟨"app", false, true, true⟩, by decide, rfl⟩

/-! ## Claim C8 -/

/-- C8: in the effective library-to-package mapping, a key present in the
manual override table resolves to the override value whatever the catalog
says, and a key absent from the override table resolves to the catalog
value. -/
theorem c8_override_wins (catalog : List (String × String)) (k : String) :
    ((jsObjGet MANUAL_LIBRARY_TO_PACKAGE_NAME_UBUNTU k).isSome = true →
      jsObjGet (libraryToPackageNameMapping catalog) k =
        jsObjGet MANUAL_LIBRARY_TO_PACKAGE_NAME_UBUNTU k) ∧
    (jsObjGet MANUAL_LIBRARY_TO_PACKAGE_NAME_UBUNTU k = none →
      jsObjGet (libraryToPackageNameMapping catalog) k = jsObjGet catalog k) := by
  have h := jsObjGet_append catalog MANUAL_LIBRARY_TO_PACKAGE_NAME_UBUNTU k
  unfold libraryToPackageNameMapping
  constructor
  · intro hs
    rw [h]
    cases hm : jsObjGet MANUAL_LIBRARY_TO_PACKAGE_NAME_UBUNTU k with
    | some v => rfl
    | none => rw [hm] at hs; simp at hs
  · intro hn
    rw [h, hn]

/-- C8 witness: the catalog maps `libx264.so` to `libx264-152`, but the
merged mapping returns the override `gstreamer1.0-libav`; a key only in
the catalog keeps the catalog value. -/
theorem c8_override_wins_witness :
    jsObjGet (libraryToPackageNameMapping [("libx264.so", "libx264-152")])
        "libx264.so" =
      jsObjGet MANUAL_LIBRARY_TO_PACKAGE_NAME_UBUNTU "libx264.so" ∧
    jsObjGet (libraryToPackageNameMapping [("libgtk-3.so.0", "libgtk-3-0")])
        "libgtk-3.so.0" =
      jsObjGet [("libgtk-3.so.0", "libgtk-3-0")] "libgtk-3.so.0" :=
  ⟨(c8_override_wins [("libx264.so", "libx264-152")] "libx264.so").1 (by decide),
   (c8_override_wins [("libgtk-3.so.0", "libgtk-3-0")] "libgtk-3.so.0").2
     (by decide)⟩

/-! ## Claim C9 -/

/-- C9, counterexample: with the aggregated set `{libgtk-3.so.0}` and a
catalog mapping it to `libgtk-3-0`, the classification loop deletes the
name from the set (tracing.ts:249), so the MissingDependencySet is not
immutable after aggregation completes. -/
theorem c9_set_mutated_after_aggregation_cex :
    classifierRemainingDeps [("libgtk-3.so.0", "libgtk-3-0")] ["libgtk-3.so.0"] ≠
      ["libgtk-3.so.0"] ∧
    "libgtk-3.so.0" ∉
      classifierRemainingDeps [("libgtk-3.so.0", "libgtk-3-0")] ["libgtk-3.so.0"] := by
  decide

/-- C9, amended: after aggregation the classification loop only removes
names from the set (every name that resolves to a package), never adds
any; the set survives classification unchanged exactly when no aggregated
name has a package mapping. -/
theorem c9_classifier_only_removes (catalog : List (String × String))
    (agg : List String) :
    classifierRemainingDeps catalog agg ⊆ agg ∧
    (classifierRemainingDeps catalog agg = agg ↔
      ∀ d ∈ agg, lookupPackage catalog d = none) := by
  constructor
  · exact List.filter_subset' _
  · unfold classifierRemainingDeps
    rw [List.filter_eq_self]
    simp [Option.isNone_iff_eq_none]

/-! ## Claim C10 -/

/-- C10: without `chromium` among the requested groups the Windows
installer prints nothing, spawns nothing and throws nothing, for either
value of the dry-run flag; with `chromium`, dry-run prints exactly the
quoted PowerShell command line, and a real run spawns the bundled media
pack script. -/
theorem c10_windows_installer_noop (binDirectory : String)
    (targets : List DependencyGroup) (dryRun : Bool) (spawnCode : Int) :
    (targets.contains .chromium = false →
      installDependenciesWindows binDirectory targets dryRun spawnCode =
        ⟨[], [], none⟩) ∧
    (targets.contains .chromium = true → dryRun = true →
      installDependenciesWindows binDirectory targets dryRun spawnCode =
        ⟨["powershell.exe " ++ jsJoin " " (quoteProcessArgs ["-ExecutionPolicy",
          "Bypass", "-File", resolvePath binDirectory "install_media_pack.ps1"])],
          [], none⟩) ∧
    (targets.contains .chromium = true → dryRun = false →
      (installDependenciesWindows binDirectory targets dryRun spawnCode).printed =
        [] ∧
      (installDependenciesWindows binDirectory targets dryRun spawnCode).spawned =
        [("powershell.exe", ["-ExecutionPolicy", "Bypass", "-File",
          resolvePath binDirectory "install_media_pack.ps1"])]) := by
  refine ⟨?_, ?_, ?_⟩
  · intro h
    have h' : DependencyGroup.chromium ∉ targets := by simpa using h
    unfold installDependenciesWindows
    simp [h']
  · intro h hd
    have h' : DependencyGroup.chromium ∈ targets := by simpa using h
    unfold installDependenciesWindows
    simp [h', hd]
  · intro h hd
    have h' : DependencyGroup.chromium ∈ targets := by simpa using h
    unfold installDependenciesWindows
    by_cases hc : spawnCode = 0 <;> simp [h', hd, hc]

/-- C10 witness: requesting only firefox is a complete no-op, in dry-run
and real mode alike. -/
theorem c10_windows_installer_noop_witness :
    installDependenciesWindows "/bin" [DependencyGroup.firefox] true 0 =
      ⟨[], [], none⟩ ∧
    installDependenciesWindows "/bin" [DependencyGroup.firefox] false 1 =
      ⟨[], [], none⟩ :=
  ⟨(c10_windows_installer_noop "/bin" [DependencyGroup.firefox] true 0).1
      (by decide),
   (c10_windows_installer_noop "/bin" [DependencyGroup.firefox] false 1).1
      (by decide)⟩

/-! ## Claim C4 -/

/-- Helper for C4: the happy-path message embeds the install-helper
command verbatim. -/
theorem happyPathMessage_decomp (sdkLanguage maybeSudo : String) :
    ∃ pre post, happyPathMessage sdkLanguage maybeSudo =
      pre ++ buildPlaywrightCLICommand sdkLanguage "install-deps" ++ post := by
  refine ⟨"\n" ++ "Host system is missing a few dependencies to run browsers." ++
    "\n" ++ "Please install them with the following command:" ++ "\n" ++ "" ++
    "\n" ++ "    " ++ maybeSudo,
    "\n" ++ "" ++ "\n" ++ "<3 Playwright Team", ?_⟩
  unfold happyPathMessage wrapInASCIIBox
  simp [jsJoin, String.append_assoc]
  simp [← String.append_assoc]

/-- Helper for C4: the happy-path message never mentions a raw apt
command. -/
theorem happyPathMessage_no_apt (sdkLanguage : String) (uid : Int)
    (platform : String) :
    strContains (happyPathMessage sdkLanguage (maybeSudoStr uid platform))
      "apt-get" = false := by
  unfold happyPathMessage wrapInASCIIBox maybeSudoStr buildPlaywrightCLICommand
  split <;> split <;> decide

/-- Helper for C4: the unhappy-path message embeds the
`apt-get install <packages>` command verbatim. -/
theorem unhappyAptDecomp (maybeSudo : String) (missingPackages : List String)
    (tail : String) :
    ∃ pre post, "Host system is missing dependencies!\n\n" ++
      missingPackagesMessage maybeSudo missingPackages ++ tail =
      pre ++ ("apt-get install " ++ jsJoin "\\\n          " missingPackages) ++
        post := by
  refine ⟨"Host system is missing dependencies!\n\n" ++
    "  Install missing packages with:" ++ "\n" ++ "      " ++ maybeSudo,
    "\n" ++ "" ++ "\n" ++ "" ++ tail, ?_⟩
  unfold missingPackagesMessage
  simp [jsJoin, String.append_assoc]
  simp [← String.append_assoc]

/-- Helper for C4: every remaining raw library name appears verbatim in
the unresolved-libraries block. -/
theorem unhappyDepMemDecomp (head : String) (hasPackages : Bool)
    (missingDeps : List String) (d : String) (hd : d ∈ missingDeps) :
    ∃ pre post, head ++ missingDependenciesMessage hasPackages missingDeps =
      pre ++ d ++ post := by
  obtain ⟨p, q, hpq⟩ := jsJoin_decomp "\n      " missingDeps d hd
  refine ⟨head ++ ("  " ++ (if hasPackages then
      "Missing libraries we didn\x27t find packages for:"
    else "Missing libraries are:")) ++ "\n" ++ "      " ++ p,
    q ++ "\n" ++ "", ?_⟩
  unfold missingDependenciesMessage
  rw [hpq]
  simp [jsJoin, String.append_assoc]
  simp [← String.append_assoc]

/-- C4: with an empty Linux missing set classification is silent; with a
non-empty set in which every name resolves to a package, the thrown fatal
message embeds the install-helper command and never a raw apt command;
with unresolved names remaining, the thrown fatal message embeds
`apt-get install` with the resolved packages whenever any exist, followed
by every unresolved raw library name. -/
theorem c4_linux_classifier (sdkLanguage : String) (uid : Int)
    (platform : String) (catalog : List (String × String)) (agg : List String) :
    (agg = [] →
      validateDependenciesLinuxCore sdkLanguage uid platform catalog agg = none) ∧
    (agg ≠ [] → classifierRemainingDeps catalog agg = [] →
      ∃ msg, validateDependenciesLinuxCore sdkLanguage uid platform catalog agg =
          some msg ∧
        (∃ pre post, msg =
          pre ++ buildPlaywrightCLICommand sdkLanguage "install-deps" ++ post) ∧
        strContains msg "apt-get" = false) ∧
    (agg ≠ [] → classifierRemainingDeps catalog agg ≠ [] →
      ∃ msg, validateDependenciesLinuxCore sdkLanguage uid platform catalog agg =
          some msg ∧
        (classifierPackages catalog agg ≠ [] →
          ∃ pre post, msg = pre ++ ("apt-get install " ++
            jsJoin "\\\n          " (classifierPackages catalog agg)) ++ post) ∧
        (∀ d ∈ classifierRemainingDeps catalog agg,
          ∃ pre post, msg = pre ++ d ++ post)) := by
  refine ⟨?_, ?_, ?_⟩
  · intro h
    subst h
    rfl
  · intro h1 h2
    have hempty : agg.isEmpty = false := by simpa [List.isEmpty_iff] using h1
    have hpkg : classifierPackages catalog agg ≠ [] := by
      obtain ⟨a, ha⟩ := List.exists_mem_of_ne_nil agg h1
      have hno : ¬((lookupPackage catalog a).isNone = true) := by
        unfold classifierRemainingDeps at h2
        exact List.filter_eq_nil_iff.mp h2 a ha
      obtain ⟨p, hp⟩ : ∃ p, lookupPackage catalog a = some p := by
        cases hl : lookupPackage catalog a with
        | some p => exact ⟨p, rfl⟩
        | none => exact absurd (by simp [hl]) hno
      have hmem : p ∈ agg.filterMap (lookupPackage catalog) :=
        List.mem_filterMap.mpr ⟨a, ha, hp⟩
      unfold classifierPackages
      intro hnil
      have hin := (mem_foldl_setAdd _ [] p).mpr (Or.inr hmem)
      rw [hnil] at hin
      simp at hin
    have hpkgE : (classifierPackages catalog agg).isEmpty = false := by
      simpa [List.isEmpty_iff] using hpkg
    refine ⟨happyPathMessage sdkLanguage (maybeSudoStr uid platform), ?_,
      happyPathMessage_decomp _ _, happyPathMessage_no_apt _ _ _⟩
    unfold validateDependenciesLinuxCore
    simp [hempty, h2, hpkgE]
  · intro h1 h3
    have hempty : agg.isEmpty = false := by simpa [List.isEmpty_iff] using h1
    have hdepsE : (classifierRemainingDeps catalog agg).isEmpty = false := by
      simpa [List.isEmpty_iff] using h3
    by_cases hp : classifierPackages catalog agg = []
    · refine ⟨"Host system is missing dependencies!\n\n" ++ "" ++
        missingDependenciesMessage false (classifierRemainingDeps catalog agg),
        ?_, fun hc => absurd hp hc, ?_⟩
      · unfold validateDependenciesLinuxCore
        simp [hempty, hdepsE, hp]
      · intro d hd
        exact unhappyDepMemDecomp ("Host system is missing dependencies!\n\n" ++ "")
          false (classifierRemainingDeps catalog agg) d hd
    · have hpkgE : (classifierPackages catalog agg).isEmpty = false := by
        simpa [List.isEmpty_iff] using hp
      refine ⟨"Host system is missing dependencies!\n\n" ++
        missingPackagesMessage (maybeSudoStr uid platform)
          (classifierPackages catalog agg) ++
        missingDependenciesMessage true (classifierRemainingDeps catalog agg),
        ?_, fun _ => unhappyAptDecomp _ _ _, ?_⟩
      · unfold validateDependenciesLinuxCore
        simp [hempty, hdepsE, hpkgE]
      · intro d hd
        exact unhappyDepMemDecomp ("Host system is missing dependencies!\n\n" ++
          missingPackagesMessage (maybeSudoStr uid platform)
            (classifierPackages catalog agg))
          true (classifierRemainingDeps catalog agg) d hd

/-- C4 witness: Scenario 3 (fully resolvable set `{libgtk-3.so.0}`) takes
the install-helper path and Scenario 4 (partially resolvable set with
`libweird.so.9` unresolved) takes the apt-plus-raw-listing path. -/
theorem c4_linux_classifier_witness :
    (∃ msg, validateDependenciesLinuxCore "javascript" 1000 "linux"
        [("libgtk-3.so.0", "libgtk-3-0")] ["libgtk-3.so.0"] = some msg ∧
      (∃ pre post, msg =
        pre ++ buildPlaywrightCLICommand "javascript" "install-deps" ++ post) ∧
      strContains msg "apt-get" = false) ∧
    (∃ msg, validateDependenciesLinuxCore "javascript" 1000 "linux"
        [("libgtk-3.so.0", "libgtk-3-0")] ["libgtk-3.so.0", "libweird.so.9"] =
          some msg ∧
      (classifierPackages [("libgtk-3.so.0", "libgtk-3-0")]
          ["libgtk-3.so.0", "libweird.so.9"] ≠ [] →
        ∃ pre post, msg = pre ++ ("apt-get install " ++
          jsJoin "\\\n          " (classifierPackages
            [("libgtk-3.so.0", "libgtk-3-0")]
            ["libgtk-3.so.0", "libweird.so.9"])) ++ post) ∧
      (∀ d ∈ classifierRemainingDeps [("libgtk-3.so.0", "libgtk-3-0")]
          ["libgtk-3.so.0", "libweird.so.9"],
        ∃ pre post, msg = pre ++ d ++ post)) :=
  ⟨(c4_linux_classifier "javascript" 1000 "linux"
      [("libgtk-3.so.0", "libgtk-3-0")] ["libgtk-3.so.0"]).2.1
    (by decide) (by decide),
   (c4_linux_classifier "javascript" 1000 "linux"
      [("libgtk-3.so.0", "libgtk-3-0")] ["libgtk-3.so.0", "libweird.so.9"]).2.2
    (by decide) (by decide)⟩

end Playwright
